import Mathlib

/-!
Shallow embedding of the TaskGuru server (`src/index.js`): an Express +
Socket.IO + MongoDB task service.  The mutation handlers
(`POST /tasks`, `PUT /tasks/:id`, `DELETE /tasks/:id`), the Socket.IO
authentication middleware, the health endpoint, and the MongoDB collection
operations they call (`insertOne`, `updateOne` with `$set`, `deleteOne`,
`findOne`) are modelled as pure Lean functions over an explicit store
state.  Asynchronous store failures (a rejected `await`, caught by the
handlers' `try/catch`) are modelled by explicit boolean/outcome parameters.
-/

set_option autoImplicit false

namespace TaskGuru

/-- A BSON value as far as the handlers observe it: either a plain JSON
string (request bodies arrive via `express.json()`, so client-supplied
field values including a client-supplied `_id` are raw JSON values, kept
opaque here) or a driver `ObjectId` identified by its 24-char hex string.
A raw string is never equal to an `ObjectId` with the same hex, matching
BSON equality. -/
inductive BVal where
  | str (s : String)
  | oid (hex : String)
deriving DecidableEq, Repr

/-- A stored document of the `tasks` collection: its `_id` plus the
remaining fields, as an association list (documents parsed from JSON have
distinct keys). -/
structure TaskDoc where
  id : BVal
  fields : List (String × BVal)
deriving DecidableEq, Repr

/-- The `tasks` collection state.  MongoDB enforces a unique index on
`_id`, so well-formed states have pairwise distinct `TaskDoc.id`s. -/
abbrev DB := List TaskDoc

/-- First-match lookup of a key in a JSON-object association list. -/
def lookupField (obj : List (String × BVal)) (k : String) : Option BVal :=
  match obj with
  | [] => none
  | (k', v) :: rest => if k' = k then some v else lookupField rest k

/-- Removal of the `_id` key from a request body, embedding
`delete updatedTask._id` (line 146) and the construction of the stored
document's non-id fields. -/
def eraseId : List (String × BVal) → List (String × BVal)
  | [] => []
  | kv :: rest => if kv.1 = "_id" then eraseId rest else kv :: eraseId rest

/-- Hexadecimal digit test for ObjectId validity. -/
def isHexChar (c : Char) : Bool :=
  c.isDigit || (letter : Bool)
where
  letter : Bool := (('a' ≤ c && c ≤ 'f') || ('A' ≤ c && c ≤ 'F'))

/-- Validity of a string argument to `new ObjectId(s)`: 24 hexadecimal
characters.  An invalid argument makes the constructor throw, which the
handlers' `try/catch` turns into a 500 response. -/
def isValidObjectId (s : String) : Bool :=
  s.length = 24 && s.toList.all isHexChar

/-- Normalisation applied by the ObjectId constructor: the hex string is
parsed to bytes, so case is not significant. -/
def normHex (s : String) : String :=
  ⟨s.toList.map Char.toLower⟩

/-- A `ChangeEvent` as emitted over Socket.IO by the handlers:
`taskAdded` and `taskUpdated` carry a full document (the `taskUpdated`
payload is the result of a `findOne` and may be `null`), `taskDeleted`
carries only the raw `:id` path string (line 180). -/
inductive Event where
  | taskAdded (payload : List (String × BVal))
  | taskUpdated (payload : Option (List (String × BVal)))
  | taskDeleted (id : String)
deriving DecidableEq, Repr

/-- An HTTP response as produced by the task handlers. -/
inductive Response where
  | ok (body : Option (List (String × BVal)))
  | created (body : List (String × BVal))
  | message (msg : String)
  | notFound (msg : String)
  | serverError (msg : String)
deriving DecidableEq, Repr

/-- The JSON object a stored document serialises to. -/
def docObj (d : TaskDoc) : List (String × BVal) :=
  ("_id", d.id) :: d.fields

/-- Embedding of `collection.findOne({_id: i})`: the first stored document
whose `_id` equals `i` (unique under the `_id` index). -/
def findDoc (db : DB) (i : BVal) : Option TaskDoc :=
  db.find? (fun d => d.id = i)

/-- Whether a document with identifier `i` exists (a filter `{_id: i}`
matches). -/
def docMatched (db : DB) (i : BVal) : Bool :=
  (findDoc db i).isSome

/-- One `$set` entry: replace the value at key `k` in place, or append the
key if absent, exactly MongoDB field assignment. -/
def setField (fs : List (String × BVal)) (k : String) (v : BVal) :
    List (String × BVal) :=
  match fs with
  | [] => [(k, v)]
  | (k', v') :: rest =>
      if k' = k then (k, v) :: rest else (k', v') :: setField rest k v

/-- Embedding of a `$set` update document applied to a document's fields:
every key of `upd` is assigned, all other fields are retained (MongoDB
`$set` merges, it does not replace the document). -/
def applySet (fs : List (String × BVal)) (upd : List (String × BVal)) :
    List (String × BVal) :=
  upd.foldl (fun acc kv => setField acc kv.1 kv.2) fs

/-- Embedding of `collection.updateOne({_id: i}, {$set: upd})`: returns
the new collection state and the reported `modifiedCount`, which is 1 only
when a document matched AND the `$set` actually changed its content
(MongoDB does not count a matched-but-unchanged document as modified). -/
def updateOne (db : DB) (i : BVal) (upd : List (String × BVal)) :
    DB × Nat :=
  match findDoc db i with
  | none => (db, 0)
  | some d =>
      let f' := applySet d.fields upd
      (db.map (fun e => if e.id = i then { e with fields := f' } else e),
       if f' = d.fields then 0 else 1)

/-- Embedding of `collection.deleteOne({_id: i})`: returns the new
collection state and the reported `deletedCount` (`_id` is unique, so the
single matching document is removed). -/
def deleteOne (db : DB) (i : BVal) : DB × Nat :=
  (db.filter (fun d => d.id ≠ i), if docMatched db i then 1 else 0)

/-- Embedding of `collection.insertOne(body)` in the successful case: the
document is stored with the client-supplied `_id` if the body has one,
otherwise with a fresh driver-generated ObjectId `freshId`; the reported
`insertedId` is returned alongside. -/
def insertOne (db : DB) (body : List (String × BVal)) (freshId : String) :
    DB × BVal :=
  let iid := match lookupField body "_id" with
    | some v => v
    | none => .oid freshId
  (db ++ [⟨iid, eraseId body⟩], iid)

/-- Outcome of the awaited `insertOne` call in the POST handler: it either
resolves with an `insertedId`, resolves without one (the
`result.insertedId` falsy branch at line 134), or rejects (caught at line
137). -/
inductive InsertOutcome where
  | success
  | noInsertedId
  | threw
deriving DecidableEq, Repr

/-- The JS object `{ _id: result.insertedId, ...task }` (line 131), as a
key/value map.  When the body itself carries an `_id`, the spread
overrides the first entry with `task._id` — but in that case
`result.insertedId` equals `task._id` (MongoDB keeps a client-supplied
`_id`), so the value at `_id` is `iid` either way. -/
def insertedTaskObj (body : List (String × BVal)) (iid : BVal) :
    List (String × BVal) :=
  ("_id", iid) :: eraseId body

/-- Embedding of the `app.post("/tasks")` handler (lines 124–140): insert
the body; on an `insertedId`, emit `taskAdded` with the inserted document
and respond 201 with it; otherwise respond 500 and emit nothing.  Returns
(response, emitted events in order, new store state). -/
def postTasks (db : DB) (body : List (String × BVal)) (freshId : String)
    (outcome : InsertOutcome) : Response × List Event × DB :=
  match outcome with
  | .threw => (.serverError "Internal server error", [], db)
  | .noInsertedId => (.serverError "Task creation failed", [], db)
  | .success =>
      let r := insertOne db body freshId
      let payload := insertedTaskObj body r.2
      (.created payload, [.taskAdded payload], r.1)

/-- Embedding of the `app.put("/tasks/:id")` handler (lines 142–166):
strip `_id` from the body, build the ObjectId (throwing on an invalid
`:id`), `updateOne` with `$set`; 404 when `modifiedCount` is 0; otherwise
re-read the full document with `findOne`, emit `taskUpdated` with it and
respond 200 with it.  `uThrows`/`fThrows` model the awaited
`updateOne`/`findOne` calls rejecting (caught at line 163). -/
def putTasks (db : DB) (idStr : String) (body : List (String × BVal))
    (uThrows fThrows : Bool) : Response × List Event × DB :=
  if !isValidObjectId idStr then (.serverError "Task update failed", [], db)
  else if uThrows then (.serverError "Task update failed", [], db)
  else
    let i := BVal.oid (normHex idStr)
    let r := updateOne db i (eraseId body)
    if r.2 = 0 then (.notFound "Task not found", [], r.1)
    else if fThrows then (.serverError "Task update failed", [], r.1)
    else
      let full := (findDoc r.1 i).map docObj
      (.ok full, [.taskUpdated full], r.1)

/-- Embedding of the `app.delete("/tasks/:id")` handler (lines 168–185):
build the ObjectId (throwing on an invalid `:id`), `deleteOne`; 404 when
`deletedCount` is 0; otherwise emit `taskDeleted` with the bare `:id`
string and respond with a confirmation message.  `dThrows` models the
awaited `deleteOne` rejecting (caught at line 182). -/
def deleteTasks (db : DB) (idStr : String) (dThrows : Bool) :
    Response × List Event × DB :=
  if !isValidObjectId idStr then
    (.serverError "Task deletion failed", [], db)
  else if dThrows then (.serverError "Task deletion failed", [], db)
  else
    let i := BVal.oid (normHex idStr)
    let r := deleteOne db i
    if r.2 = 0 then (.notFound "Task not found", [], r.1)
    else (.message "Task deleted successfully", [.taskDeleted idStr], r.1)

/-- Embedding of the `io.use` authentication middleware (lines 84–92): a
truthy `auth.email` (absent `undefined` and the empty string are falsy)
admits the socket to the namespace (`next()`), storing the email on it;
otherwise the namespace connection is rejected with
`next(new Error("Unauthorized"))`. -/
def authMiddleware (authEmail : Option String) : Except String String :=
  match authEmail with
  | some e => if e = "" then .error "Unauthorized" else .ok e
  | none => .error "Unauthorized"

/-- The namespace sockets admitted by the middleware, as pairs of a
connection handle and the authenticated `userEmail`. -/
abbrev Sessions := List (Nat × String)

/-- The Socket.IO server's in-memory connection state, at the two levels
the source observes.  `engineClients` are the open engine.io
transport connections — what `io.engine.clientsCount` counts (line 204);
`sessions` are the namespace sockets that passed the `io.use` middleware —
what `io.emit` delivers to.  An engine connection is established and
counted BEFORE the namespace `CONNECT` packet carries `auth` to the
middleware, and a middleware rejection does not close it. -/
structure IoState where
  engineClients : List Nat
  sessions : Sessions
deriving DecidableEq, Repr

/-- An engine.io transport connection is opened: the client is counted
immediately, before any handshake auth is examined. -/
def engineOpen (st : IoState) (handle : Nat) : IoState :=
  { st with engineClients := st.engineClients ++ [handle] }

/-- The namespace `CONNECT` packet is processed: the `io.use` middleware
either admits the socket to the namespace (it is added to `sessions`) or
rejects it with a `CONNECT_ERROR` carrying "Unauthorized" — in which case
the namespace state is unchanged, but the engine connection stays open
and counted (until the client closes it or `connectTimeout` fires). -/
def nsConnect (st : IoState) (handle : Nat) (authEmail : Option String) :
    IoState × Except String Unit :=
  match authMiddleware authEmail with
  | .ok e => ({ st with sessions := st.sessions ++ [(handle, e)] }, .ok ())
  | .error m => (st, .error m)

/-- An engine connection closes (client disconnect or the rejection
timeout): it stops being counted and any namespace session it carried is
removed. -/
def engineClose (st : IoState) (handle : Nat) : IoState :=
  { engineClients := st.engineClients.filter (fun h => h ≠ handle)
    sessions := st.sessions.filter (fun s => s.1 ≠ handle) }

/-- Embedding of `io.emit(ev)`: the event is delivered to every admitted
namespace socket, as (handle, event) pairs.  Engine connections that were
never admitted to the namespace receive nothing. -/
def ioEmit (st : IoState) (ev : Event) : List (Nat × Event) :=
  st.sessions.map (fun s => (s.1, ev))

/-- The health snapshot responded by `app.get("/")` (lines 197–206). -/
structure Health where
  status : String
  mongo : String
  websockets : Nat
deriving DecidableEq, Repr

/-- Embedding of the health handler: `websockets` is
`io.engine.clientsCount`, the number of open engine.io connections —
including connections the middleware rejected that have not yet closed. -/
def healthReport (mongoConnected : Bool) (st : IoState) : Health :=
  { status := "ok"
    mongo := if mongoConnected then "connected" else "disconnected"
    websockets := st.engineClients.length }

/-- The state of a freshly started server: no connections. -/
def ioEmpty : IoState :=
  { engineClients := [], sessions := [] }

/-!
Interleaving model for concurrent `PUT /tasks/:id` and `DELETE /tasks/:id`
requests on the same identifier.  Each handler is a sequence of atomic
blocks separated by its `await` points: the PUT handler has two blocks —
`pu` (the `updateOne` call returns; lines 149–156) and `pf` (the `findOne`
call returns, then the emit and the response run synchronously; lines
158–162) — while the DELETE handler is one block `d` (the `deleteOne` call
returns, then the emit and the response run synchronously; lines 172–181).
The Node.js event loop may run `d` before, between, or after the PUT's two
blocks.  Socket.IO delivers emitted events to each connection in emit
order, so the global emit log gives the per-session observation order.
-/

/-- An atomic block of one of the two concurrent handlers. -/
inductive Step where
  | pu
  | pf
  | d
deriving DecidableEq, Repr

/-- The shared state of the two-request interleaving: the store, the emit
log, the PUT handler's program counter (0: before `updateOne` returned;
1: `updateOne` returned with the recorded `modifiedCount ≠ 0` flag;
2: finished) and whether the DELETE handler has run its block. -/
structure CState where
  db : DB
  log : List Event
  putPC : Nat
  putModified : Bool
  delDone : Bool
deriving DecidableEq, Repr

/-- Execution of one atomic block, for a PUT of `$set`-document `setDoc`
and a DELETE, both on the identifier `i` reached via path string `idStr`
(both valid, neither store call rejecting).  A block of a handler that has
already finished (or, for `pf`, whose 404 early return skipped the
re-read) is a no-op. -/
def cStep (i : BVal) (idStr : String) (setDoc : List (String × BVal))
    (s : CState) : Step → CState
  | .pu =>
      if s.putPC = 0 then
        let r := updateOne s.db i setDoc
        { s with db := r.1, putPC := 1, putModified := r.2 ≠ 0 }
      else s
  | .pf =>
      if s.putPC = 1 then
        if s.putModified then
          let full := (findDoc s.db i).map docObj
          { s with putPC := 2, log := s.log ++ [.taskUpdated full] }
        else { s with putPC := 2 }
      else s
  | .d =>
      if !s.delDone then
        let r := deleteOne s.db i
        { s with
          db := r.1
          delDone := true
          log := if r.2 = 0 then s.log else s.log ++ [.taskDeleted idStr] }
      else s

/-- Run a schedule of atomic blocks from an initial store. -/
def cRun (i : BVal) (idStr : String) (setDoc : List (String × BVal))
    (init : DB) (sched : List Step) : CState :=
  sched.foldl (cStep i idStr setDoc)
    { db := init, log := [], putPC := 0, putModified := false,
      delDone := false }

/-- Whether an emit log contains a `taskUpdated` delivered after a
`taskDeleted` for the given identifier. -/
def updatedAfterDeleted (idStr : String) : List Event → Bool
  | [] => false
  | .taskDeleted j :: rest =>
      (j = idStr && rest.any (fun e => match e with
        | .taskUpdated _ => true
        | _ => false)) || updatedAfterDeleted idStr rest
  | _ :: rest => updatedAfterDeleted idStr rest

/-- A sequence of PUT requests applied one after the other (each one's
resulting store feeding the next), with non-rejecting store calls. -/
def applyPuts (db : DB) : List (String × List (String × BVal)) → DB
  | [] => db
  | (i, b) :: rest => applyPuts (putTasks db i b false false).2.2 rest

/-!
Helper lemmas about field lookup, `$set` application and the collection
operations.
-/

theorem lookupField_eraseId (obj : List (String × BVal)) (k : String)
    (hk : k ≠ "_id") : lookupField (eraseId obj) k = lookupField obj k := by
  induction obj with
  | nil => rfl
  | cons kv rest ih =>
    by_cases h1 : kv.1 = "_id"
    · have hne : "_id" ≠ k := fun h => hk h.symm
      simp [eraseId, lookupField, h1, hne, ih]
    · by_cases h2 : kv.1 = k <;> simp [eraseId, lookupField, h1, h2, hk, ih]

theorem lookupField_eraseId_id (obj : List (String × BVal)) :
    lookupField (eraseId obj) "_id" = none := by
  induction obj with
  | nil => rfl
  | cons kv rest ih =>
    by_cases h1 : kv.1 = "_id" <;> simp [eraseId, lookupField, h1, ih]

theorem lookupField_eraseId_none (obj : List (String × BVal)) (k : String)
    (h : lookupField obj k = none) : lookupField (eraseId obj) k = none := by
  by_cases hk : k = "_id"
  · rw [hk]
    exact lookupField_eraseId_id obj
  · rw [lookupField_eraseId obj k hk]
    exact h

theorem eraseId_sublist (obj : List (String × BVal)) :
    List.Sublist (eraseId obj) obj := by
  induction obj with
  | nil => exact List.Sublist.refl _
  | cons kv rest ih =>
    by_cases h1 : kv.1 = "_id"
    · simp only [eraseId, if_pos h1]
      exact ih.cons kv
    · simp only [eraseId, if_neg h1]
      exact ih.cons₂ kv

theorem lookupField_setField_self (fs : List (String × BVal)) (k : String)
    (v : BVal) : lookupField (setField fs k v) k = some v := by
  induction fs with
  | nil => simp [setField, lookupField]
  | cons kv rest ih =>
    by_cases h : kv.1 = k <;> simp [setField, lookupField, h, ih]

theorem lookupField_setField_ne (fs : List (String × BVal)) (k k' : String)
    (v : BVal) (h : k' ≠ k) :
    lookupField (setField fs k v) k' = lookupField fs k' := by
  induction fs with
  | nil => simp [setField, lookupField, Ne.symm h]
  | cons kv rest ih =>
    by_cases h1 : kv.1 = k
    · simp [setField, lookupField, h1, Ne.symm h, ih]
    · by_cases h2 : kv.1 = k' <;>
        simp [setField, lookupField, h, h1, h2, ih]

theorem lookupField_applySet_none (fs upd : List (String × BVal))
    (k : String) (h : lookupField upd k = none) :
    lookupField (applySet fs upd) k = lookupField fs k := by
  induction upd generalizing fs with
  | nil => rfl
  | cons kv rest ih =>
    by_cases h1 : kv.1 = k
    · simp [lookupField, h1] at h
    · simp only [lookupField, if_neg h1] at h
      show lookupField (applySet (setField fs kv.1 kv.2) rest) k = _
      rw [ih _ h, lookupField_setField_ne _ _ _ _ (fun hh => h1 hh.symm)]

theorem lookupField_none_of_not_mem (obj : List (String × BVal)) (k : String)
    (h : k ∉ obj.map Prod.fst) : lookupField obj k = none := by
  induction obj with
  | nil => rfl
  | cons kv rest ih =>
    simp only [List.map_cons, List.mem_cons] at h
    push_neg at h
    simp [lookupField, Ne.symm h.1, ih h.2]

theorem lookupField_applySet_some (fs upd : List (String × BVal))
    (k : String) (v : BVal) (hnd : (upd.map Prod.fst).Nodup)
    (h : lookupField upd k = some v) :
    lookupField (applySet fs upd) k = some v := by
  induction upd generalizing fs with
  | nil => simp [lookupField] at h
  | cons kv rest ih =>
    simp only [List.map_cons, List.nodup_cons] at hnd
    by_cases h1 : kv.1 = k
    · simp only [lookupField, if_pos h1] at h
      show lookupField (applySet (setField fs kv.1 kv.2) rest) k = some v
      have hrest : lookupField rest k = none := by
        apply lookupField_none_of_not_mem
        rw [← h1]
        exact hnd.1
      rw [lookupField_applySet_none _ _ _ hrest, h1,
        lookupField_setField_self, h]
    · simp only [lookupField, if_neg h1] at h
      show lookupField (applySet (setField fs kv.1 kv.2) rest) k = some v
      exact ih _ hnd.2 h

theorem findDoc_id (db : DB) (i : BVal) (d : TaskDoc)
    (h : findDoc db i = some d) : d.id = i := by
  have := List.find?_some h
  simpa using this

theorem findDoc_map_preserve (db : DB) (i : BVal) (f : TaskDoc → TaskDoc)
    (hf : ∀ d, (f d).id = d.id) :
    findDoc (db.map f) i = (findDoc db i).map f := by
  induction db with
  | nil => rfl
  | cons d rest ih =>
    by_cases h : d.id = i
    · simp [findDoc, List.find?, hf, h]
    · simp only [findDoc, List.map_cons] at *
      rw [List.find?_cons_of_neg, List.find?_cons_of_neg]
      · exact ih
      · simp [h]
      · simp [hf, h]

theorem findDoc_updateOne (db : DB) (i : BVal)
    (upd : List (String × BVal)) (d : TaskDoc)
    (h : findDoc db i = some d) :
    findDoc (updateOne db i upd).1 i =
      some { d with fields := applySet d.fields upd } := by
  unfold updateOne
  rw [h]
  simp only
  rw [findDoc_map_preserve]
  · rw [h]
    simp [findDoc_id db i d h]
  · intro e
    by_cases he : e.id = i <;> simp [he]

theorem updateOne_map_id (db : DB) (i : BVal)
    (upd : List (String × BVal)) :
    (updateOne db i upd).1.map TaskDoc.id = db.map TaskDoc.id := by
  unfold updateOne
  cases hfind : findDoc db i with
  | none => simp
  | some d =>
    simp only [List.map_map]
    apply List.map_congr_left
    intro e _
    by_cases he : e.id = i <;> simp [he]

theorem updateOne_matched (db : DB) (i : BVal)
    (upd : List (String × BVal)) (h : (updateOne db i upd).2 ≠ 0) :
    ∃ d, findDoc db i = some d := by
  unfold updateOne at h
  cases hfind : findDoc db i with
  | none => rw [hfind] at h; simp at h
  | some d => exact ⟨d, rfl⟩

theorem findDoc_deleteOne (db : DB) (i : BVal) :
    findDoc (deleteOne db i).1 i = none := by
  unfold deleteOne
  simp only
  induction db with
  | nil => rfl
  | cons d rest ih =>
    by_cases h : d.id = i
    · simpa [List.filter_cons, h] using ih
    · simp only [List.filter_cons]
      rw [if_pos (by simp [h])]
      simp only [findDoc] at *
      rw [List.find?_cons_of_neg _ (by simp [h])]
      exact ih

theorem putTasks_map_id (db : DB) (idStr : String)
    (body : List (String × BVal)) (uT fT : Bool) :
    (putTasks db idStr body uT fT).2.2.map TaskDoc.id =
      db.map TaskDoc.id := by
  simp only [putTasks]
  split
  · rfl
  · split
    · rfl
    · split
      · exact updateOne_map_id ..
      · split
        · exact updateOne_map_id ..
        · exact updateOne_map_id ..

theorem applyPuts_map_id (db : DB)
    (reqs : List (String × List (String × BVal))) :
    (applyPuts db reqs).map TaskDoc.id = db.map TaskDoc.id := by
  induction reqs generalizing db with
  | nil => rfl
  | cons r rest ih =>
    show (applyPuts (putTasks db r.1 r.2 false false).2.2 rest).map _ = _
    rw [ih, putTasks_map_id]

/-!
Concrete fixtures used for counterexamples and witnesses.
-/

/-- A concrete valid 24-hex ObjectId string. -/
def hexA : String := "aaaaaaaaaaaaaaaaaaaaaaaa"

/-- A concrete store holding one task document with two fields. -/
def dbA : DB := [⟨.oid hexA, [("title", .str "T"), ("status", .str "done")]⟩]

/-!
Claims.
-/

/-- Claim C1, counterexample to the stated iff: on a store whose
`updateOne` reports `modifiedCount = 1` (an actual state change) but whose
subsequent `findOne` re-read rejects, the PUT handler emits nothing and
responds 500 — so an actual reported state change without an emitted
event. -/
theorem C1_counterexample :
    (putTasks dbA hexA [("title", BVal.str "T2")] false true).2.1 = [] ∧
    (putTasks dbA hexA [("title", BVal.str "T2")] false true).1 =
      Response.serverError "Task update failed" ∧
    (updateOne dbA (BVal.oid (normHex hexA))
      (eraseId [("title", BVal.str "T2")])).2 = 1 :=
  ⟨rfl, rfl, rfl⟩

/-- Claim C1 (amended): a ChangeEvent is emitted iff the mutation store
call returns successfully and reports an actual state change
(`insertedId` present, `modifiedCount ≠ 0`, `deletedCount ≠ 0`) and — for
update — the subsequent `findOne` re-read also returns successfully; in
particular, when a store call throws or the mutation reports no change,
nothing is emitted, and no event is emitted before the persistence call
has returned. -/
theorem C1_emit_iff_change (db : DB) (body : List (String × BVal))
    (freshId : String) (outcome : InsertOutcome) (idStr : String)
    (uT fT dT : Bool) :
    ((postTasks db body freshId outcome).2.1 ≠ [] ↔
      outcome = InsertOutcome.success) ∧
    ((putTasks db idStr body uT fT).2.1 ≠ [] ↔
      (isValidObjectId idStr = true ∧ uT = false ∧
        (updateOne db (BVal.oid (normHex idStr)) (eraseId body)).2 ≠ 0 ∧
        fT = false)) ∧
    ((deleteTasks db idStr dT).2.1 ≠ [] ↔
      (isValidObjectId idStr = true ∧ dT = false ∧
        (deleteOne db (BVal.oid (normHex idStr))).2 ≠ 0)) := by
  refine ⟨?_, ?_, ?_⟩
  · cases outcome <;> simp [postTasks]
  · by_cases h1 : isValidObjectId idStr <;> by_cases h2 : uT <;>
      by_cases h3 :
        (updateOne db (BVal.oid (normHex idStr)) (eraseId body)).2 = 0 <;>
      by_cases h4 : fT <;> simp [putTasks, h1, h2, h3, h4]
  · by_cases h1 : isValidObjectId idStr <;> by_cases h2 : dT <;>
      by_cases h3 : (deleteOne db (BVal.oid (normHex idStr))).2 = 0 <;>
      simp [deleteTasks, h1, h2, h3]

/-- Claim C2, counterexample: a PUT whose `$set` leaves the matched
document unchanged reports `modifiedCount = 0`, so the handler responds
404 even though a document matched the identifier. -/
theorem C2_counterexample :
    docMatched dbA (BVal.oid (normHex hexA)) = true ∧
    (putTasks dbA hexA [("title", BVal.str "T")] false false).1 =
      Response.notFound "Task not found" ∧
    (putTasks dbA hexA [("title", BVal.str "T")] false false).2.1 = [] :=
  ⟨rfl, rfl, rfl⟩

/-- Claim C2 (amended): for a PUT with a valid identifier and
non-rejecting store calls, the response is 404 exactly when the store
reports zero documents MODIFIED (no match, or a matched document left
unchanged by the `$set`), with no event emitted; when a document was
modified, the response is 200 with the full updated task re-read from the
store after the update, and an Updated event carrying that same document
is emitted. -/
theorem C2_put_notfound_iff_unmodified (db : DB) (idStr : String)
    (body : List (String × BVal))
    (hvalid : isValidObjectId idStr = true) :
    ((putTasks db idStr body false false).1 =
        Response.notFound "Task not found" ↔
      (updateOne db (BVal.oid (normHex idStr)) (eraseId body)).2 = 0) ∧
    ((putTasks db idStr body false false).2.1 = [] ↔
      (updateOne db (BVal.oid (normHex idStr)) (eraseId body)).2 = 0) ∧
    ((updateOne db (BVal.oid (normHex idStr)) (eraseId body)).2 ≠ 0 →
      (putTasks db idStr body false false).1 =
        Response.ok
          ((findDoc (updateOne db (BVal.oid (normHex idStr))
            (eraseId body)).1 (BVal.oid (normHex idStr))).map docObj) ∧
      (putTasks db idStr body false false).2.1 =
        [Event.taskUpdated
          ((findDoc (updateOne db (BVal.oid (normHex idStr))
            (eraseId body)).1 (BVal.oid (normHex idStr))).map docObj)] ∧
      ((findDoc (updateOne db (BVal.oid (normHex idStr))
        (eraseId body)).1 (BVal.oid (normHex idStr))).isSome = true)) := by
  by_cases h3 : (updateOne db (BVal.oid (normHex idStr)) (eraseId body)).2 = 0
  · refine ⟨?_, ?_, ?_⟩ <;> simp [putTasks, hvalid, h3]
  · refine ⟨?_, ?_, ?_⟩
    · simp [putTasks, hvalid, h3]
    · simp [putTasks, hvalid, h3]
    · intro _
      obtain ⟨d, hd⟩ := updateOne_matched _ _ _ h3
      refine ⟨by simp [putTasks, hvalid, h3], by simp [putTasks, hvalid, h3],
        ?_⟩
      rw [findDoc_updateOne _ _ _ _ hd]
      rfl

/-- Witness instantiating the amended C2 theorem at a concrete modifying
update. -/
theorem C2_witness :
    ((putTasks dbA hexA [("title", BVal.str "T2")] false false).2.1 = [] ↔
      (updateOne dbA (BVal.oid (normHex hexA))
        (eraseId [("title", BVal.str "T2")])).2 = 0) :=
  (C2_put_notfound_iff_unmodified dbA hexA [("title", BVal.str "T2")]
    (by decide)).2.1

/-- Claim C3: for every successful `POST /tasks`, the response is 201 with
the inserted payload, the emitted `taskAdded` event carries that same
payload, the payload's identifier equals the `insertedId` returned by the
store's insert, and every non-identifier field of the submitted body
appears unchanged in the payload. -/
theorem C3_created_payload (db : DB) (body : List (String × BVal))
    (freshId : String) :
    (postTasks db body freshId InsertOutcome.success).1 =
      Response.created (insertedTaskObj body (insertOne db body freshId).2) ∧
    (postTasks db body freshId InsertOutcome.success).2.1 =
      [Event.taskAdded
        (insertedTaskObj body (insertOne db body freshId).2)] ∧
    lookupField (insertedTaskObj body (insertOne db body freshId).2)
      "_id" = some (insertOne db body freshId).2 ∧
    ∀ k v, k ≠ "_id" → lookupField body k = some v →
      lookupField (insertedTaskObj body (insertOne db body freshId).2) k =
        some v := by
  refine ⟨rfl, rfl, ?_, ?_⟩
  · simp [insertedTaskObj, lookupField]
  · intro k v hk hv
    show lookupField (("_id", _) :: eraseId body) k = some v
    simp only [lookupField, if_neg (Ne.symm hk)]
    rw [lookupField_eraseId _ _ hk]
    exact hv

/-- Witness instantiating the C3 theorem at a concrete creation. -/
theorem C3_witness :
    lookupField (insertedTaskObj [("title", BVal.str "x")]
      (insertOne [] [("title", BVal.str "x")] hexA).2) "_id" =
      some (insertOne [] [("title", BVal.str "x")] hexA).2 ∧
    lookupField (insertedTaskObj [("title", BVal.str "x")]
      (insertOne [] [("title", BVal.str "x")] hexA).2) "title" =
      some (BVal.str "x") := by
  have h := C3_created_payload [] [("title", BVal.str "x")] hexA
  exact ⟨h.2.2.1, h.2.2.2 "title" (BVal.str "x") (by decide) rfl⟩

/-- Claim C4: deleting an existing identifier twice in sequence yields one
success that emits exactly one Deleted event carrying the bare identifier,
and one 404 that emits nothing. -/
theorem C4_delete_idempotent (db : DB) (idStr : String)
    (hvalid : isValidObjectId idStr = true)
    (hmatch : docMatched db (BVal.oid (normHex idStr)) = true) :
    (deleteTasks db idStr false).1 =
      Response.message "Task deleted successfully" ∧
    (deleteTasks db idStr false).2.1 = [Event.taskDeleted idStr] ∧
    (deleteTasks (deleteTasks db idStr false).2.2 idStr false).1 =
      Response.notFound "Task not found" ∧
    (deleteTasks (deleteTasks db idStr false).2.2 idStr false).2.1 =
      [] := by
  have h1 : (deleteOne db (BVal.oid (normHex idStr))).2 = 1 := by
    simp [deleteOne, hmatch]
  have hdb : (deleteTasks db idStr false).2.2 =
      (deleteOne db (BVal.oid (normHex idStr))).1 := by
    simp [deleteTasks, hvalid, h1]
  have h2 : docMatched (deleteOne db (BVal.oid (normHex idStr))).1
      (BVal.oid (normHex idStr)) = false := by
    simp [docMatched, findDoc_deleteOne]
  have h3 : (deleteOne (deleteOne db (BVal.oid (normHex idStr))).1
      (BVal.oid (normHex idStr))).2 = 0 := by
    show (if docMatched (deleteOne db (BVal.oid (normHex idStr))).1
      (BVal.oid (normHex idStr)) then 1 else 0) = 0
    rw [h2]
    rfl
  refine ⟨?_, ?_, ?_, ?_⟩
  · simp [deleteTasks, hvalid, h1]
  · simp [deleteTasks, hvalid, h1]
  · rw [hdb]
    simp [deleteTasks, hvalid, h3]
  · rw [hdb]
    simp [deleteTasks, hvalid, h3]

/-- Witness instantiating the C4 theorem at a concrete store. -/
theorem C4_witness :
    (deleteTasks dbA hexA false).2.1 = [Event.taskDeleted hexA] ∧
    (deleteTasks (deleteTasks dbA hexA false).2.2 hexA false).1 =
      Response.notFound "Task not found" ∧
    (deleteTasks (deleteTasks dbA hexA false).2.2 hexA false).2.1 = [] := by
  have h := C4_delete_idempotent dbA hexA (by decide) (by decide)
  exact ⟨h.2.1, h.2.2.1, h.2.2.2⟩

/-- Claim C5, counterexample to the health-count conjunct: on a fresh
server, a single connection whose handshake supplies no email is rejected
with Unauthorized and admitted to no session, yet the health endpoint's
`io.engine.clientsCount` reports 1 — the never-authenticated connection
IS included, because the engine connection was counted before the
middleware ran and a rejection does not close it. -/
theorem C5_counterexample :
    (nsConnect (engineOpen ioEmpty 1) 1 none).2 =
      Except.error "Unauthorized" ∧
    (nsConnect (engineOpen ioEmpty 1) 1 none).1.sessions = [] ∧
    (healthReport true (nsConnect (engineOpen ioEmpty 1) 1 none).1).websockets
      = 1 :=
  ⟨rfl, rfl, rfl⟩

/-- Claim C5 (amended): a connection whose handshake supplies no email is
rejected with Unauthorized and is never admitted as a namespace session —
it receives no pushed events — but it IS transiently included in the
engine-level connection count the health endpoint reports, from the
moment the engine connection opens until that connection closes (client
close or `connectTimeout`); once it closes it is counted no longer. -/
theorem C5_never_admitted (st : IoState) (handle : Nat) (mongoUp : Bool)
    (hsess : handle ∉ st.sessions.map Prod.fst)
    (heng : handle ∉ st.engineClients) :
    (nsConnect (engineOpen st handle) handle none).2 =
      Except.error "Unauthorized" ∧
    (nsConnect (engineOpen st handle) handle none).1.sessions =
      st.sessions ∧
    (∀ ev : Event, handle ∉
      (ioEmit (nsConnect (engineOpen st handle) handle none).1 ev).map
        Prod.fst) ∧
    (healthReport mongoUp
      (nsConnect (engineOpen st handle) handle none).1).websockets =
      st.engineClients.length + 1 ∧
    handle ∈ (nsConnect (engineOpen st handle) handle none).1.engineClients ∧
    (healthReport mongoUp
      (engineClose (nsConnect (engineOpen st handle) handle none).1
        handle)).websockets = st.engineClients.length ∧
    handle ∉ (engineClose (nsConnect (engineOpen st handle) handle none).1
      handle).engineClients := by
  have hstate : (nsConnect (engineOpen st handle) handle none).1 =
      engineOpen st handle := rfl
  have hfil : st.engineClients.filter (fun h => h ≠ handle) =
      st.engineClients := by
    apply List.filter_eq_self.mpr
    intro a ha
    simp only [decide_eq_true_eq]
    exact fun hh => heng (hh ▸ ha)
  refine ⟨rfl, rfl, ?_, ?_, ?_, ?_, ?_⟩
  · intro ev
    rw [hstate]
    show handle ∉ (st.sessions.map (fun s => (s.1, ev))).map Prod.fst
    simpa [List.map_map, Function.comp] using hsess
  · rw [hstate]
    simp [healthReport, engineOpen]
  · rw [hstate]
    simp [engineOpen]
  · rw [hstate]
    simp [healthReport, engineClose, engineOpen, List.filter_append, hfil]
    exact fun a ha hh => heng (hh ▸ ha)
  · rw [hstate]
    simp [engineClose, engineOpen, List.mem_filter]

/-- Witness instantiating the amended C5 theorem at a concrete server
state holding one authenticated session. -/
theorem C5_witness :
    (nsConnect (engineOpen ⟨[5], [(5, "a@x.com")]⟩ 2) 2 none).2 =
      Except.error "Unauthorized" ∧
    2 ∉ (ioEmit (nsConnect (engineOpen ⟨[5], [(5, "a@x.com")]⟩ 2) 2 none).1
      (Event.taskDeleted hexA)).map Prod.fst ∧
    (healthReport true
      (nsConnect (engineOpen ⟨[5], [(5, "a@x.com")]⟩ 2) 2 none).1).websockets
      = 2 ∧
    (healthReport true
      (engineClose (nsConnect (engineOpen ⟨[5], [(5, "a@x.com")]⟩ 2) 2
        none).1 2)).websockets = 1 := by
  have h := C5_never_admitted ⟨[5], [(5, "a@x.com")]⟩ 2 true
    (by decide) (by decide)
  exact ⟨h.1, h.2.2.1 (Event.taskDeleted hexA), h.2.2.2.1, h.2.2.2.2.2.1⟩

/-- Claim C6: the PUT handler strips any client-supplied `_id` from the
`$set` document, and the stored identifiers are unchanged by any single
update and by any sequence of updates. -/
theorem C6_id_immutable (db : DB) :
    (∀ body : List (String × BVal),
      lookupField (eraseId body) "_id" = none) ∧
    (∀ (idStr : String) (body : List (String × BVal)) (uT fT : Bool),
      (putTasks db idStr body uT fT).2.2.map TaskDoc.id =
        db.map TaskDoc.id) ∧
    (∀ reqs : List (String × List (String × BVal)),
      (applyPuts db reqs).map TaskDoc.id = db.map TaskDoc.id) :=
  ⟨fun body => lookupField_eraseId_id body,
   fun idStr body uT fT => putTasks_map_id db idStr body uT fT,
   fun reqs => applyPuts_map_id db reqs⟩

/-- Claim C7, counterexample to full-document replace semantics: a PUT
whose body lacks the `status` field leaves the previously stored `status`
value in place (`$set` merges), so the stored mutable fields do not equal
the body's fields. -/
theorem C7_counterexample :
    lookupField [("title", BVal.str "T2")] "status" = none ∧
    (putTasks dbA hexA [("title", BVal.str "T2")] false false).1 =
      Response.ok (some [("_id", BVal.oid hexA), ("title", BVal.str "T2"),
        ("status", BVal.str "done")]) ∧
    findDoc (putTasks dbA hexA [("title", BVal.str "T2")] false false).2.2
      (BVal.oid hexA) =
      some ⟨BVal.oid hexA,
        [("title", BVal.str "T2"), ("status", BVal.str "done")]⟩ ∧
    lookupField [("title", BVal.str "T2"), ("status", BVal.str "done")]
      "status" = some (BVal.str "done") :=
  ⟨rfl, rfl, rfl, rfl⟩

/-- Claim C7 (amended): update has MERGE semantics on the mutable field
set: after a successful PUT with body B, every non-identifier field of B
holds B's value in the stored document, and every field absent from B
keeps its previous stored value. -/
theorem C7_update_merges (db : DB) (idStr : String)
    (body : List (String × BVal)) (old : TaskDoc)
    (hvalid : isValidObjectId idStr = true)
    (hnd : (body.map Prod.fst).Nodup)
    (hfind : findDoc db (BVal.oid (normHex idStr)) = some old)
    (hmod :
      (updateOne db (BVal.oid (normHex idStr)) (eraseId body)).2 ≠ 0) :
    findDoc (putTasks db idStr body false false).2.2
      (BVal.oid (normHex idStr)) =
      some { old with fields := applySet old.fields (eraseId body) } ∧
    (∀ k v, k ≠ "_id" → lookupField body k = some v →
      lookupField (applySet old.fields (eraseId body)) k = some v) ∧
    (∀ k : String, lookupField body k = none →
      lookupField (applySet old.fields (eraseId body)) k =
        lookupField old.fields k) := by
  have hdb : (putTasks db idStr body false false).2.2 =
      (updateOne db (BVal.oid (normHex idStr)) (eraseId body)).1 := by
    simp [putTasks, hvalid, hmod]
  refine ⟨?_, ?_, ?_⟩
  · rw [hdb]
    exact findDoc_updateOne _ _ _ _ hfind
  · intro k v hk hv
    apply lookupField_applySet_some
    · exact ((eraseId_sublist body).map Prod.fst).nodup hnd
    · rw [lookupField_eraseId _ _ hk]
      exact hv
  · intro k hnone
    exact lookupField_applySet_none _ _ _ (lookupField_eraseId_none _ _ hnone)

/-- Witness instantiating the amended C7 theorem at a concrete merging
update. -/
theorem C7_witness :
    lookupField (applySet [("title", BVal.str "T"),
      ("status", BVal.str "done")] (eraseId [("title", BVal.str "T2")]))
      "title" = some (BVal.str "T2") ∧
    lookupField (applySet [("title", BVal.str "T"),
      ("status", BVal.str "done")] (eraseId [("title", BVal.str "T2")]))
      "status" = lookupField [("title", BVal.str "T"),
        ("status", BVal.str "done")] "status" := by
  have h := C7_update_merges dbA hexA [("title", BVal.str "T2")]
    ⟨BVal.oid hexA, [("title", BVal.str "T"), ("status", BVal.str "done")]⟩
    (by decide) (by decide) rfl (by decide)
  exact ⟨h.2.1 "title" (BVal.str "T2") (by decide) rfl, h.2.2 "status" rfl⟩

/-- Claim C8: evaluation of the interleaved PUT/DELETE handlers at the
failing schedule — the update persistence call returns first, the delete
then persists and emits `taskDeleted`, and only afterwards the PUT's
`findOne` re-read resumes and emits `taskUpdated` (with a null payload):
the Updated event is delivered after the later Deleted event for the same
identifier, violating the per-entity ordering the specification
requires. -/
theorem C8_reordered_delivery :
    (cRun (BVal.oid hexA) hexA [("title", BVal.str "T2")] dbA
      [Step.pu, Step.d, Step.pf]).log =
      [Event.taskDeleted hexA, Event.taskUpdated none] ∧
    updatedAfterDeleted hexA
      (cRun (BVal.oid hexA) hexA [("title", BVal.str "T2")] dbA
        [Step.pu, Step.d, Step.pf]).log = true ∧
    List.indexOf Step.pu [Step.pu, Step.d, Step.pf] <
      List.indexOf Step.d [Step.pu, Step.d, Step.pf] :=
  ⟨rfl, rfl, by decide⟩

/-- Claim C9, counterexample: a creation request without a `userEmail`
field is accepted and persisted as a task document without an owner
email. -/
theorem C9_counterexample :
    lookupField [("title", BVal.str "x")] "userEmail" = none ∧
    (postTasks [] [("title", BVal.str "x")] hexA InsertOutcome.success).1 =
      Response.created [("_id", BVal.oid hexA), ("title", BVal.str "x")] ∧
    (postTasks [] [("title", BVal.str "x")] hexA
      InsertOutcome.success).2.2 =
      [⟨BVal.oid hexA, [("title", BVal.str "x")]⟩] :=
  ⟨rfl, rfl, rfl⟩

/-- Claim C9 (amended): the POST handler performs no owner-email
validation: a creation request lacking a `userEmail` field is persisted
as submitted, i.e. as a task document without an owner email. -/
theorem C9_no_owner_validation (db : DB) (body : List (String × BVal))
    (freshId : String) (h : lookupField body "userEmail" = none) :
    (postTasks db body freshId InsertOutcome.success).1 =
      Response.created
        (insertedTaskObj body (insertOne db body freshId).2) ∧
    (postTasks db body freshId InsertOutcome.success).2.2 =
      db ++ [⟨(insertOne db body freshId).2, eraseId body⟩] ∧
    lookupField (eraseId body) "userEmail" = none := by
  refine ⟨rfl, rfl, ?_⟩
  exact lookupField_eraseId_none body "userEmail" h

/-- Witness instantiating the amended C9 theorem at a concrete
email-less creation. -/
theorem C9_witness :
    (postTasks [] [("title", BVal.str "x")] hexA InsertOutcome.success).2.2
      = [] ++ [⟨(insertOne [] [("title", BVal.str "x")] hexA).2,
        eraseId [("title", BVal.str "x")]⟩] ∧
    lookupField (eraseId [("title", BVal.str "x")]) "userEmail" = none := by
  have h := C9_no_owner_validation [] [("title", BVal.str "x")] hexA
    (by decide)
  exact ⟨h.2.1, h.2.2⟩

/-- Claim C10: a PUT or DELETE whose `:id` path parameter is not a
well-formed ObjectId string makes the identifier construction throw, so
the request returns 500 with the handler's failure message (not 404), no
event is emitted and the store is untouched. -/
theorem C10_invalid_id (db : DB) (idStr : String)
    (body : List (String × BVal)) (uT fT dT : Bool)
    (h : isValidObjectId idStr = false) :
    putTasks db idStr body uT fT =
      (Response.serverError "Task update failed", [], db) ∧
    deleteTasks db idStr dT =
      (Response.serverError "Task deletion failed", [], db) := by
  constructor <;> simp [putTasks, deleteTasks, h]

/-- Witness instantiating the C10 theorem at a concrete malformed
identifier. -/
theorem C10_witness :
    putTasks dbA "nope" [("title", BVal.str "T2")] false false =
      (Response.serverError "Task update failed", [], dbA) ∧
    deleteTasks dbA "nope" false =
      (Response.serverError "Task deletion failed", [], dbA) := by
  have h := C10_invalid_id dbA "nope" [("title", BVal.str "T2")]
    false false false (by decide)
  exact ⟨h.1, h.2⟩

end TaskGuru
